import Mathlib

/-!
Shallow embedding of `src/app.py` (JobMetricsFilter), function `process_excel`.

Modelling conventions:
* A cell value is a `String`; the `Completed At` cell is modelled by the result
  of `pd.to_datetime(.., utc=True, errors='coerce')` on it: `some t` (a UTC
  instant, in seconds since the epoch) or `none` (`NaT`, unparseable).
* Calendar dates (the caller's start/end bounds) are integers counting days
  since the epoch; `pd.to_datetime(date).tz_localize('UTC')` is midnight UTC
  of that day, i.e. `day * 86400` seconds.
* The two `raise ValueError(..)` sites of `process_excel` are the two
  constructors of `PipelineError`, each carrying the message string built at
  that site; `process_excel` returns `Except PipelineError ..` instead of
  raising.
* Percentage cells are strings in the source (`.astype(str) + '%'`).  They are
  modelled by `PctCell`: `.pct bp` is the percentage rounded to two decimals
  (`round(2)`), held exactly as an integer count of hundredths of a percent
  (basis points) and rendered as `bp / 100` with a `%` sign; `.nan` is the
  string "nan%" that pandas produces when the float division was 0/0 (NaN);
  `.lit s` is a literal string such as the "100%" placed in Total rows.
* `round(2)` on pandas floats rounds half to even; `natDivRound` reproduces
  that exactly on the integer divisions at hand.
-/

/-- One data row of a sheet, restricted to the four required columns.
`completedAt` is the parse result of the `Completed At` cell (see above). -/
structure Row where
  tenant : String
  systemJob : String
  triggerType : String
  completedAt : Option Int
deriving DecidableEq, Repr

/-- One tab of the input workbook: its name, its raw (pre-normalization)
column labels, and its data rows. -/
structure RawSheet where
  name : String
  columns : List String
  rows : List Row
deriving DecidableEq, Repr

/-- Python `str.strip()` restricted to whitespace. -/
def pyStrip (s : String) : String :=
  ⟨((s.toList.dropWhile Char.isWhitespace).reverse.dropWhile Char.isWhitespace).reverse⟩

/-- Worker for `pyTitle`: the Boolean records whether the previous character
was alphabetic (cased). -/
def titleMap : Bool → List Char → List Char
  | _, [] => []
  | prevAlpha, c :: cs =>
    (if c.isAlpha then (if prevAlpha then c.toLower else c.toUpper) else c)
      :: titleMap c.isAlpha cs

/-- Python `str.title()`: a letter is uppercased when it follows a non-letter,
lowercased otherwise. -/
def pyTitle (s : String) : String := ⟨titleMap false s.toList⟩

/-- `col.strip().title()` from line 18 of `app.py`. -/
def normalizeLabel (s : String) : String := pyTitle (pyStrip s)

/-- Python `str.lower()` (`.str.lower()` on a column). -/
def pyLower (s : String) : String := ⟨s.toList.map Char.toLower⟩

/-- The required column set of line 20 of `app.py`. -/
def requiredColumns : List String :=
  ["Tenant", "System Job", "Trigger Type", "Completed At"]

/-- `required_columns.issubset(df.columns)` after normalization (lines 18-21). -/
def validates (sh : RawSheet) : Bool :=
  requiredColumns.all (fun c => (sh.columns.map normalizeLabel).contains c)

/-- A single-quote character, as a string (used in the error message). -/
def squote : String := String.singleton (Char.ofNat 39)

/-- The message of the `raise ValueError` at line 22 of `app.py`:
`f"Sheet '{sheet}' is missing required columns."` -/
def schemaMsg (sheetName : String) : String :=
  "Sheet " ++ squote ++ sheetName ++ squote ++ " is missing required columns."

/-- The message of the `raise ValueError` at line 122 of `app.py`. -/
def noDataMsg : String :=
  "No data found within the selected date range in any sheet."

/-- The two `ValueError` raise sites of `process_excel`, distinguished by
site, each carrying its message. -/
inductive PipelineError where
  | schema (msg : String)
  | noData (msg : String)
deriving DecidableEq, Repr

/-- The row-level mask of line 29 of `app.py`, after the `dropna` of line 26:
a dropped (`NaT`) timestamp never passes. -/
def inRange (startUtc endUtc : Int) (r : Row) : Bool :=
  match r.completedAt with
  | some t => decide (startUtc ≤ t) && decide (t ≤ endUtc)
  | none => false

/-- Lines 25-30 of `app.py`: drop rows whose `Completed At` failed to parse,
then keep rows with `start_date_utc <= t <= end_date_utc`.  The two bounds are
already UTC instants here. -/
def temporalFilter (rows : List Row) (startUtc endUtc : Int) : List Row :=
  (rows.filter (fun r => r.completedAt.isSome)).filter (inRange startUtc endUtc)

/-- Lines 11-12 of `app.py` composed with the filter: the start date becomes
midnight UTC of that day and the end date becomes midnight UTC of the
following day (`+ timedelta(days=1)`). -/
def filterByWindow (rows : List Row) (startDate endDate : Int) : List Row :=
  temporalFilter rows (startDate * 86400) ((endDate + 1) * 86400)

/-- Round `a / b` (with `b > 0`) half to even (numpy/pandas float `round`) to
an integer, entirely in ℕ: quotient `q`, remainder `r`, round up when the
fraction `r / b` exceeds one half, to the even neighbour at a tie. -/
def natDivRound (a b : ℕ) : ℕ :=
  let q := a / b
  let r := a % b
  if 2 * r < b then q
  else if b < 2 * r then q + 1
  else if q % 2 = 0 then q else q + 1

/-- A rendered percentage cell (see the file comment). -/
inductive PctCell where
  | pct (basisPoints : ℕ)
  | nan
  | lit (s : String)
deriving DecidableEq, Repr

/-- `(count / total * 100).round(2).astype(str) + '%'` with integer `count`
and `total`: the percentage rounded to two decimals is exactly
`natDivRound (count * 10000) total` basis points.  Pandas produces NaN
(rendered "nan%") when `total = 0` (then `count = 0` too at every use site,
so the division is 0/0). -/
def pctDiv (count total : ℕ) : PctCell :=
  if total = 0 then .nan else .pct (natDivRound (count * 10000) total)

/-- The zero-guarded denominator of lines 89-100 of `app.py`:
`total if total != 0 else 1`. -/
def guardDen (n : ℕ) : ℕ := if n = 0 then 1 else n

/-- `count / (total if total != 0 else 1) * 100`, rounded to two decimals,
rendered. -/
def pctGuard (count total : ℕ) : PctCell :=
  .pct (natDivRound (count * 10000) (guardDen total))

/-- `.value_counts()` of the lower-cased column restricted to one token, i.e.
the number of values whose lower-casing equals `tok` (`reindex(.., fill_value=0)`
makes an absent token count 0). -/
def countToken (vals : List String) (tok : String) : ℕ :=
  (vals.filter (fun v => decide (pyLower v = tok))).length

/-- One row of a categorical summary table (`job_type_df` / `trigger_df`):
a label, a count, a percentage cell. -/
structure CatRow where
  label : String
  count : ℕ
  pct : PctCell
deriving DecidableEq, Repr

/-- Lines 36-43 of `app.py`: the Job Type table.  Counts of lower-cased
`System Job` equal to "yes" / "no", percentages over their sum (no zero
guard), then the appended `['Total', job_type_total, '100%']` row. -/
def job_type_df (rows : List Row) : List CatRow :=
  let yes := countToken (rows.map Row.systemJob) "yes"
  let no := countToken (rows.map Row.systemJob) "no"
  let tot := yes + no
  [⟨"System Jobs", yes, pctDiv yes tot⟩,
   ⟨"User-Defined Jobs", no, pctDiv no tot⟩,
   ⟨"Total", tot, .lit "100%"⟩]

/-- Lines 46-53 of `app.py`: the Trigger Type table, same shape with tokens
"ad-hoc" / "scheduled" and labels "Adhoc" / "Scheduled". -/
def trigger_df (rows : List Row) : List CatRow :=
  let adhoc := countToken (rows.map Row.triggerType) "ad-hoc"
  let sched := countToken (rows.map Row.triggerType) "scheduled"
  let tot := adhoc + sched
  [⟨"Adhoc", adhoc, pctDiv adhoc tot⟩,
   ⟨"Scheduled", sched, pctDiv sched tot⟩,
   ⟨"Total", tot, .lit "100%"⟩]

/-- One row of the tenant volume table (`tenant_df`, lines 56-60). -/
structure VolRow where
  tenant : String
  jobCount : ℕ
  pct : PctCell
deriving DecidableEq, Repr

/-- Descending-count order on the (value, count) pairs of `value_counts()`. -/
def cmpDesc (a b : String × ℕ) : Prop := b.2 ≤ a.2

instance : DecidableRel cmpDesc := fun a b => Nat.decLe b.2 a.2

instance : IsTotal (String × ℕ) cmpDesc := ⟨fun a b => Nat.le_total b.2 a.2⟩

instance : IsTrans (String × ℕ) cmpDesc := ⟨fun _ _ _ h1 h2 => le_trans h2 h1⟩

/-- The number of occurrences of one value in a column. -/
def countVal (vals : List String) (v : String) : ℕ :=
  (vals.filter (fun x => decide (x = v))).length

/-- `Series.value_counts()`: one (value, count) pair per distinct value,
sorted by descending count. -/
def valueCounts (vals : List String) : List (String × ℕ) :=
  List.insertionSort cmpDesc (vals.dedup.map (fun v => (v, countVal vals v)))

/-- Lines 56-59 of `app.py`: the tenant rows of `tenant_df`, before the Total
row.  `tenant_total` is the column sum of the counts. -/
def tenant_df_rows (rows : List Row) : List VolRow :=
  let vc := valueCounts (rows.map Row.tenant)
  let tenantTotal := (vc.map Prod.snd).sum
  vc.map (fun p => ⟨p.1, p.2, pctDiv p.2 tenantTotal⟩)

/-- `tenant_df['Job Count'].sum()` (line 58). -/
def tenant_total (rows : List Row) : ℕ :=
  ((valueCounts (rows.map Row.tenant)).map Prod.snd).sum

/-- Lines 56-60 of `app.py`: the full tenant volume table, Total row appended. -/
def tenant_df (rows : List Row) : List VolRow :=
  tenant_df_rows rows ++ [⟨"Total", tenant_total rows, .lit "100%"⟩]

/-- Number of rows of one tenant satisfying a predicate (`groupby` size). -/
def countBy (rows : List Row) (t : String) (p : Row → Bool) : ℕ :=
  (rows.filter (fun r => decide (r.tenant = t) && p r)).length

/-- The tenant index of the wide table: `groupby('Tenant')` sorts the distinct
tenant keys ascending, and the outer join of the two groupbys (line 70) keeps
that index (both sides carry every tenant, since every row has both a
`System Job` and a `Trigger Type` value). -/
def tenantIndex (rows : List Row) : List String :=
  List.insertionSort (fun a b => a ≤ b) (rows.map Row.tenant).dedup

/-- The four per-tenant counts of lines 63-80 of `app.py`: `unstack(fill_value=0)`
of the two groupbys, renamed, outer-joined, missing columns synthesized as 0. -/
structure WideCounts where
  tenant : String
  sysYes : ℕ
  sysNo : ℕ
  adhoc : ℕ
  sched : ℕ
deriving DecidableEq, Repr

/-- Lines 63-80 of `app.py`: the count part of `tenant_metrics`. -/
def tenant_metrics_counts (rows : List Row) : List WideCounts :=
  (tenantIndex rows).map (fun t =>
    ⟨t,
     countBy rows t (fun r => decide (pyLower r.systemJob = "yes")),
     countBy rows t (fun r => decide (pyLower r.systemJob = "no")),
     countBy rows t (fun r => decide (pyLower r.triggerType = "ad-hoc")),
     countBy rows t (fun r => decide (pyLower r.triggerType = "scheduled"))⟩)

/-- `total_yes = tenant_metrics['System Jobs'].sum()` (line 83). -/
def total_yes (rows : List Row) : ℕ :=
  ((tenant_metrics_counts rows).map WideCounts.sysYes).sum

/-- `total_no` (line 84). -/
def total_no (rows : List Row) : ℕ :=
  ((tenant_metrics_counts rows).map WideCounts.sysNo).sum

/-- `total_adhoc` (line 85). -/
def total_adhoc (rows : List Row) : ℕ :=
  ((tenant_metrics_counts rows).map WideCounts.adhoc).sum

/-- `total_scheduled` (line 86). -/
def total_scheduled (rows : List Row) : ℕ :=
  ((tenant_metrics_counts rows).map WideCounts.sched).sum

/-- One row of the wide cross-tab `tenant_metrics`, in the fixed column order
of lines 103-109. -/
structure WideRow where
  tenant : String
  systemJobs : ℕ
  systemJobsPct : PctCell
  userJobs : ℕ
  userJobsPct : PctCell
  adhoc : ℕ
  adhocPct : PctCell
  sched : ℕ
  schedPct : PctCell
deriving DecidableEq, Repr

/-- Lines 62-113 of `app.py`: the wide tenant cross-tab, percentages taken
against the zero-guarded global column sums.  No Total row is appended. -/
def tenant_metrics (rows : List Row) : List WideRow :=
  (tenant_metrics_counts rows).map (fun c =>
    ⟨c.tenant,
     c.sysYes, pctGuard c.sysYes (total_yes rows),
     c.sysNo, pctGuard c.sysNo (total_no rows),
     c.adhoc, pctGuard c.adhoc (total_adhoc rows),
     c.sched, pctGuard c.sched (total_scheduled rows)⟩)

/-- One named report table of the bundle. -/
inductive ReportTable where
  | cat (rows : List CatRow)
  | vol (rows : List VolRow)
  | wide (rows : List WideRow)
deriving DecidableEq, Repr

/-- Lines 116-119 of `app.py`: the four named tables a non-skipped sheet at
(1-based) position `idx` stores into `all_results`. -/
def sheetTables (idx : ℕ) (filtered : List Row) : List (String × ReportTable) :=
  [("Env_" ++ toString idx ++ "_Job_Type", .cat (job_type_df filtered)),
   ("Env_" ++ toString idx ++ "_Trigger_Type", .cat (trigger_df filtered)),
   ("Env_" ++ toString idx ++ "_TenantWise_Job_Count", .vol (tenant_df filtered)),
   ("Env_" ++ toString idx ++ "_TenantWise_System_Trigger_Count",
     .wide (tenant_metrics filtered))]

/-- The sheet loop of lines 14-119 of `app.py` (`enumerate(.., start=1)`):
schema failure raises immediately; a sheet empty after filtering is skipped
(`continue`) but still consumes its index; otherwise its four tables are
appended in order. -/
def processSheets (startUtc endUtc : Int) : ℕ → List RawSheet →
    Except PipelineError (List (String × ReportTable))
  | _, [] => .ok []
  | idx, sh :: rest =>
    if validates sh then
      let filtered := temporalFilter sh.rows startUtc endUtc
      if filtered.isEmpty then
        processSheets startUtc endUtc (idx + 1) rest
      else
        match processSheets startUtc endUtc (idx + 1) rest with
        | .error e => .error e
        | .ok tail => .ok (sheetTables idx filtered ++ tail)
    else
      .error (.schema (schemaMsg sh.name))

/-- `process_excel` (lines 6-131 of `app.py`), up to workbook serialization:
convert the date bounds, run the sheet loop, and raise the no-data error when
`all_results` stayed empty.  On success the ordered bundle (`all_results`) is
returned; the workbook bytes are a direct serialization of it. -/
def process_excel (sheets : List RawSheet) (startDate endDate : Int) :
    Except PipelineError (List (String × ReportTable)) :=
  let startUtc := startDate * 86400
  let endUtc := (endDate + 1) * 86400
  match processSheets startUtc endUtc 1 sheets with
  | .error e => .error e
  | .ok results => if results.isEmpty then .error (.noData noDataMsg) else .ok results

/-- The tables of a pipeline outcome: none when the run raised. -/
def tablesOf (r : Except PipelineError (List (String × ReportTable))) :
    List (String × ReportTable) :=
  match r with
  | .ok l => l
  | .error _ => []

/-- Whether a pipeline outcome is a success. -/
def isOkE (r : Except PipelineError (List (String × ReportTable))) : Bool :=
  match r with
  | .ok _ => true
  | .error _ => false

/-- `getLast?` of a one-element append. -/
lemma getLast_append_singleton {α : Type} (l : List α) (a : α) :
    (l ++ [a]).getLast? = some a := by
  induction l with
  | nil => rfl
  | cons x xs ih =>
    rw [List.cons_append, List.getLast?_cons, ih]
    cases xs <;> rfl

/-- Claim C1: for every row of a normalized sheet, the row survives the
Temporal Filter iff its `Completed At` value parsed (`some t`) and the UTC
instant `t` lies in the closed interval from midnight UTC of the start date
to midnight UTC of the day after the end date, both ends included. -/
theorem temporalFilter_mem_iff (rows : List Row) (s e : Int) (r : Row)
    (hr : r ∈ rows) :
    r ∈ filterByWindow rows s e ↔
      ∃ t : Int, r.completedAt = some t ∧ s * 86400 ≤ t ∧ t ≤ (e + 1) * 86400 := by
  unfold filterByWindow temporalFilter
  simp only [List.mem_filter, hr, true_and]
  cases h : r.completedAt with
  | none => simp [inRange, h]
  | some t => simp [inRange, h]

/-- Witness for C1: a concrete row at exactly midnight UTC of end-date+1 is
retained. -/
theorem temporalFilter_mem_iff_witness :
    (⟨"A", "yes", "ad-hoc", some 172800⟩ : Row) ∈
        [(⟨"A", "yes", "ad-hoc", some 172800⟩ : Row)]
    ∧ ((⟨"A", "yes", "ad-hoc", some 172800⟩ : Row) ∈
          filterByWindow [⟨"A", "yes", "ad-hoc", some 172800⟩] 0 1 ↔
        ∃ t : Int, (some 172800 : Option Int) = some t
          ∧ 0 * 86400 ≤ t ∧ t ≤ (1 + 1) * 86400) :=
  ⟨by decide, temporalFilter_mem_iff [⟨"A", "yes", "ad-hoc", some 172800⟩] 0 1
    ⟨"A", "yes", "ad-hoc", some 172800⟩ (by decide)⟩

/-- Claim C4 (code bug): on a filtered sheet whose `System Job` values are
neither "yes" nor "no", both category counts are 0, so line 42 of `app.py`
divides by a zero total with NO zero-guard: pandas yields NaN (rendered
"nan%"), not "0%".  The zero-guard the claim describes exists only in the
cross-tab (`pctGuard`, lines 89-100), which indeed renders 0%. -/
theorem jobType_zero_total_divides_by_zero :
    job_type_df [⟨"Acme", "true", "ad-hoc", some 0⟩] =
      [⟨"System Jobs", 0, PctCell.nan⟩,
       ⟨"User-Defined Jobs", 0, PctCell.nan⟩,
       ⟨"Total", 0, PctCell.lit "100%"⟩]
    ∧ pctGuard 0 0 = PctCell.pct 0 := by
  refine ⟨by decide, by decide⟩

/-- Claim C7 (amended): the job-type, trigger-type and tenant-volume tables
always end with the synthetic "Total" row; the wide cross-tab does not (see
the counterexample). -/
theorem tables_end_with_total_row (rows : List Row) :
    ((job_type_df rows).getLast?).map CatRow.label = some "Total"
    ∧ ((trigger_df rows).getLast?).map CatRow.label = some "Total"
    ∧ ((tenant_df rows).getLast?).map VolRow.tenant = some "Total" := by
  refine ⟨rfl, rfl, ?_⟩
  rw [tenant_df, getLast_append_singleton]
  rfl

/-- Counterexample to Claim C7 as stated: the wide tenant cross-tab built for
a non-empty filtered sheet has no trailing "Total" row — its only row is the
tenant itself. -/
theorem wide_table_lacks_total_row :
    (tenant_metrics [⟨"Acme", "yes", "ad-hoc", some 0⟩]).map WideRow.tenant = ["Acme"]
    ∧ ("Acme" : String) ≠ "Total" := ⟨by decide, by decide⟩

/-- Claim C10: in the tenant volume table the tenant rows are ordered by
descending Job Count (`value_counts()` sorts descending), and the table is
exactly those rows with the Total row appended after them. -/
theorem tenant_volume_sorted_desc (rows : List Row) :
    List.Sorted (fun a b : VolRow => b.jobCount ≤ a.jobCount) (tenant_df_rows rows)
    ∧ tenant_df rows =
        tenant_df_rows rows ++ [⟨"Total", tenant_total rows, PctCell.lit "100%"⟩] := by
  constructor
  · have h := List.sorted_insertionSort cmpDesc
      ((rows.map Row.tenant).dedup.map
        (fun v => (v, countVal (rows.map Row.tenant) v)))
    unfold tenant_df_rows valueCounts
    exact List.Pairwise.map _ (fun a b hab => hab) h
  · rfl

/-- Splitting a sum over a pointwise sum of ℕ-valued functions. -/
lemma sum_map_add_nat {α : Type} (T : List α) (f g : α → ℕ) :
    (T.map (fun t => f t + g t)).sum = (T.map f).sum + (T.map g).sum := by
  induction T with
  | nil => rfl
  | cons a l ih =>
    simp only [List.map_cons, List.sum_cons, ih]
    omega

/-- Over a duplicate-free list containing `x`, the indicator of `x` sums
to one. -/
lemma sum_indicator_nodup (T : List String) (x : String) :
    T.Nodup → x ∈ T →
      (T.map (fun t => if x = t then (1 : ℕ) else 0)).sum = 1 := by
  induction T with
  | nil => intro _ hx; cases hx
  | cons a l ih =>
    intro hT hx
    have ha : a ∉ l := (List.nodup_cons.mp hT).1
    rw [List.map_cons, List.sum_cons]
    rcases List.mem_cons.mp hx with rfl | hx2
    · rw [if_pos rfl]
      have hz : (l.map (fun t => if x = t then (1 : ℕ) else 0)).sum = 0 := by
        apply List.sum_eq_zero
        intro y hy
        obtain ⟨t, ht, rfl⟩ := List.mem_map.mp hy
        have hxt : x ≠ t := fun h => ha (h ▸ ht)
        simp [hxt]
      omega
    · have hxa : x ≠ a := fun h => ha (h ▸ hx2)
      rw [if_neg hxa, ih (List.nodup_cons.mp hT).2 hx2]

/-- Unfolding `countBy` over a cons. -/
lemma countBy_cons (r : Row) (rs : List Row) (t : String) (p : Row → Bool) :
    countBy (r :: rs) t p =
      (if r.tenant = t then (if p r then (1 : ℕ) else 0) else 0)
        + countBy rs t p := by
  unfold countBy
  rw [List.filter_cons]
  by_cases h1 : r.tenant = t
  · by_cases h2 : p r
    · simp [h1, h2]
      omega
    · simp [h1, h2]
  · simp [h1]

/-- Partition identity: summing the per-tenant counts over a duplicate-free
list of tenants covering every row recovers the global count. -/
lemma countBy_sum (T : List String) (p : Row → Bool) (rows : List Row) :
    T.Nodup → (∀ r ∈ rows, r.tenant ∈ T) →
      (T.map (fun t => countBy rows t p)).sum = (rows.filter p).length := by
  induction rows with
  | nil =>
    intro _ _
    rw [List.filter_nil]
    apply List.sum_eq_zero
    intro y hy
    obtain ⟨t, _, rfl⟩ := List.mem_map.mp hy
    rfl
  | cons r rs ih =>
    intro hT hc
    have hr : r.tenant ∈ T := hc r (List.mem_cons_self _ _)
    have hcs : ∀ x ∈ rs, x.tenant ∈ T := fun x hx => hc x (List.mem_cons_of_mem _ hx)
    simp only [countBy_cons]
    rw [sum_map_add_nat, ih hT hcs, List.filter_cons]
    by_cases hp : p r
    · have h1 : (T.map (fun t => if r.tenant = t then (if p r then (1 : ℕ) else 0) else 0)).sum
          = (T.map (fun t => if r.tenant = t then (1 : ℕ) else 0)).sum := by
        congr 1
        apply List.map_congr_left
        intro t _
        by_cases h : r.tenant = t <;> simp [h, hp]
      rw [h1, sum_indicator_nodup T r.tenant hT hr]
      simp [hp]
      omega
    · have h0 : (T.map (fun t => if r.tenant = t then (if p r then (1 : ℕ) else 0) else 0)).sum = 0 := by
        apply List.sum_eq_zero
        intro y hy
        obtain ⟨t, _, rfl⟩ := List.mem_map.mp hy
        by_cases h : r.tenant = t <;> simp [h, hp]
      rw [h0]
      simp [hp]

/-- The tenant index of the wide cross-tab is duplicate-free. -/
lemma tenantIndex_nodup (rows : List Row) : (tenantIndex rows).Nodup := by
  unfold tenantIndex
  exact ((List.perm_insertionSort _ _).nodup_iff).mpr (List.nodup_dedup _)

/-- Every row's tenant appears in the tenant index. -/
lemma mem_tenantIndex (rows : List Row) (r : Row) (hr : r ∈ rows) :
    r.tenant ∈ tenantIndex rows := by
  unfold tenantIndex
  rw [(List.perm_insertionSort _ _).mem_iff, List.mem_dedup]
  exact List.mem_map_of_mem Row.tenant hr

/-- Filtering a mapped list has the length of filtering the composite. -/
lemma length_filter_map_eq {α β : Type} (l : List α) (f : α → β) (p : β → Bool) :
    ((l.map f).filter p).length = (l.filter (fun x => p (f x))).length := by
  induction l with
  | nil => rfl
  | cons a as ih =>
    rw [List.map_cons, List.filter_cons, List.filter_cons]
    by_cases h : p (f a) <;> simp [h, ih]

/-- The `System Jobs` column of the wide cross-tab sums to the global "yes"
count of the sheet. -/
lemma total_yes_eq_countToken (rows : List Row) :
    total_yes rows = countToken (rows.map Row.systemJob) "yes" := by
  unfold total_yes tenant_metrics_counts countToken
  rw [List.map_map]
  have hcomp : (WideCounts.sysYes ∘ fun t =>
      (⟨t, countBy rows t (fun r => decide (pyLower r.systemJob = "yes")),
        countBy rows t (fun r => decide (pyLower r.systemJob = "no")),
        countBy rows t (fun r => decide (pyLower r.triggerType = "ad-hoc")),
        countBy rows t (fun r => decide (pyLower r.triggerType = "scheduled"))⟩ : WideCounts))
      = fun t => countBy rows t (fun r => decide (pyLower r.systemJob = "yes")) := rfl
  rw [hcomp]
  rw [countBy_sum (tenantIndex rows) _ rows (tenantIndex_nodup rows)
    (fun r hr => mem_tenantIndex rows r hr)]
  rw [length_filter_map_eq]

/-- Counterexample to Claim C3 as stated: on a legitimate filtered sheet with
no "ad-hoc" row at all, the global `Adhoc` column sum is zero, and lines
89-100 of `app.py` divide by the substituted guard value 1 — the cell renders
"0.0%" — whereas a division by the claimed denominator, the global column sum
itself, would be the 0/0 NaN division ("nan%"). -/
theorem wide_zero_sum_denominator_is_guard_not_sum :
    (tenant_metrics [⟨"A", "yes", "scheduled", some 0⟩]).map WideRow.adhocPct
      = [PctCell.pct 0]
    ∧ total_adhoc [⟨"A", "yes", "scheduled", some 0⟩] = 0
    ∧ pctDiv 0 (total_adhoc [⟨"A", "yes", "scheduled", some 0⟩]) = PctCell.nan
    ∧ PctCell.pct 0 ≠ PctCell.nan := ⟨by decide, by decide, by decide, by decide⟩

/-- Claim C3 (amended): for EVERY filtered sheet, the `System Jobs` column of
the wide tenant cross-tab sums to the number of rows whose case-folded
`System Job` is "yes", and every one of the four percentage cells of every
tenant row divides its count by the ZERO-GUARDED global column sum — the
global column sum of that count when it is non-zero, with 1 substituted when
that sum is zero — never by the per-tenant row total. -/
theorem wide_sum_eq_global_yes_and_guarded_pct (rows : List Row) (w : WideRow)
    (hw : w ∈ tenant_metrics rows) :
    total_yes rows = countToken (rows.map Row.systemJob) "yes"
    ∧ w.systemJobsPct = PctCell.pct (natDivRound (w.systemJobs * 10000)
        (if total_yes rows = 0 then 1 else total_yes rows))
    ∧ w.userJobsPct = PctCell.pct (natDivRound (w.userJobs * 10000)
        (if total_no rows = 0 then 1 else total_no rows))
    ∧ w.adhocPct = PctCell.pct (natDivRound (w.adhoc * 10000)
        (if total_adhoc rows = 0 then 1 else total_adhoc rows))
    ∧ w.schedPct = PctCell.pct (natDivRound (w.sched * 10000)
        (if total_scheduled rows = 0 then 1 else total_scheduled rows)) := by
  obtain ⟨c, hc, rfl⟩ := List.mem_map.mp hw
  exact ⟨total_yes_eq_countToken rows, rfl, rfl, rfl, rfl⟩

/-- Witness for C3 at a concrete one-row sheet that genuinely exercises the
zero-guard branch (its global `User-Defined Jobs` and `Adhoc` sums are 0). -/
theorem wide_sum_eq_global_yes_and_guarded_pct_witness :
    (⟨"A", 1, .pct 10000, 0, .pct 0, 0, .pct 0, 1, .pct 10000⟩ : WideRow)
        ∈ tenant_metrics [⟨"A", "yes", "scheduled", some 0⟩]
    ∧ (total_yes [(⟨"A", "yes", "scheduled", some 0⟩ : Row)]
        = countToken (List.map Row.systemJob [(⟨"A", "yes", "scheduled", some 0⟩ : Row)]) "yes"
      ∧ (⟨"A", 1, .pct 10000, 0, .pct 0, 0, .pct 0, 1, .pct 10000⟩ : WideRow).systemJobsPct
          = PctCell.pct (natDivRound
              ((⟨"A", 1, .pct 10000, 0, .pct 0, 0, .pct 0, 1, .pct 10000⟩ : WideRow).systemJobs * 10000)
              (if total_yes [(⟨"A", "yes", "scheduled", some 0⟩ : Row)] = 0 then 1
               else total_yes [(⟨"A", "yes", "scheduled", some 0⟩ : Row)]))
      ∧ (⟨"A", 1, .pct 10000, 0, .pct 0, 0, .pct 0, 1, .pct 10000⟩ : WideRow).userJobsPct
          = PctCell.pct (natDivRound
              ((⟨"A", 1, .pct 10000, 0, .pct 0, 0, .pct 0, 1, .pct 10000⟩ : WideRow).userJobs * 10000)
              (if total_no [(⟨"A", "yes", "scheduled", some 0⟩ : Row)] = 0 then 1
               else total_no [(⟨"A", "yes", "scheduled", some 0⟩ : Row)]))
      ∧ (⟨"A", 1, .pct 10000, 0, .pct 0, 0, .pct 0, 1, .pct 10000⟩ : WideRow).adhocPct
          = PctCell.pct (natDivRound
              ((⟨"A", 1, .pct 10000, 0, .pct 0, 0, .pct 0, 1, .pct 10000⟩ : WideRow).adhoc * 10000)
              (if total_adhoc [(⟨"A", "yes", "scheduled", some 0⟩ : Row)] = 0 then 1
               else total_adhoc [(⟨"A", "yes", "scheduled", some 0⟩ : Row)]))
      ∧ (⟨"A", 1, .pct 10000, 0, .pct 0, 0, .pct 0, 1, .pct 10000⟩ : WideRow).schedPct
          = PctCell.pct (natDivRound
              ((⟨"A", 1, .pct 10000, 0, .pct 0, 0, .pct 0, 1, .pct 10000⟩ : WideRow).sched * 10000)
              (if total_scheduled [(⟨"A", "yes", "scheduled", some 0⟩ : Row)] = 0 then 1
               else total_scheduled [(⟨"A", "yes", "scheduled", some 0⟩ : Row)]))) :=
  ⟨by decide,
   wide_sum_eq_global_yes_and_guarded_pct [⟨"A", "yes", "scheduled", some 0⟩]
     ⟨"A", 1, .pct 10000, 0, .pct 0, 0, .pct 0, 1, .pct 10000⟩ (by decide)⟩

/-- Specification-side rendering of the table-name layout (used to state the
amended Claim C6): every sheet that passes validation and is non-empty after
filtering contributes exactly its four table names, carrying `Env_<n>_` where
`<n>` is the 1-based position of the sheet in the input file; a skipped sheet
contributes nothing but still consumes its index. -/
def expectedNames (startUtc endUtc : Int) : ℕ → List RawSheet → List String
  | _, [] => []
  | idx, sh :: rest =>
    (if (temporalFilter sh.rows startUtc endUtc).isEmpty then []
     else ["Env_" ++ toString idx ++ "_Job_Type",
           "Env_" ++ toString idx ++ "_Trigger_Type",
           "Env_" ++ toString idx ++ "_TenantWise_Job_Count",
           "Env_" ++ toString idx ++ "_TenantWise_System_Trigger_Count"])
      ++ expectedNames startUtc endUtc (idx + 1) rest

/-- The names of the four tables a sheet stores. -/
lemma sheetTables_names (idx : ℕ) (filtered : List Row) :
    (sheetTables idx filtered).map Prod.fst =
      ["Env_" ++ toString idx ++ "_Job_Type",
       "Env_" ++ toString idx ++ "_Trigger_Type",
       "Env_" ++ toString idx ++ "_TenantWise_Job_Count",
       "Env_" ++ toString idx ++ "_TenantWise_System_Trigger_Count"] := rfl

/-- When every sheet validates, the loop succeeds and produces exactly the
names described by `expectedNames`. -/
lemma processSheets_names (startUtc endUtc : Int) (sheets : List RawSheet) :
    ∀ idx : ℕ, (∀ sh ∈ sheets, validates sh = true) →
      ∃ l, processSheets startUtc endUtc idx sheets = .ok l
        ∧ l.map Prod.fst = expectedNames startUtc endUtc idx sheets := by
  induction sheets with
  | nil => exact fun idx _ => ⟨[], rfl, rfl⟩
  | cons sh rest ih =>
    intro idx hv
    have hsh : validates sh = true := hv sh (List.mem_cons_self _ _)
    have hrest : ∀ s ∈ rest, validates s = true :=
      fun s hs => hv s (List.mem_cons_of_mem _ hs)
    obtain ⟨l, hl, hnames⟩ := ih (idx + 1) hrest
    by_cases he : (temporalFilter sh.rows startUtc endUtc).isEmpty
    · refine ⟨l, ?_, ?_⟩
      · rw [processSheets, if_pos hsh]
        simp only [he, if_true]
        exact hl
      · rw [expectedNames]
        simp only [he, if_true, List.nil_append]
        exact hnames
    · refine ⟨sheetTables idx (temporalFilter sh.rows startUtc endUtc) ++ l, ?_, ?_⟩
      · rw [processSheets, if_pos hsh]
        simp only [he, if_false, Bool.false_eq_true]
        rw [hl]
      · rw [expectedNames]
        simp only [he, if_false, Bool.false_eq_true, List.map_append,
          sheetTables_names, hnames]

/-- The expected name list is empty exactly when every sheet is empty after
filtering. -/
lemma expectedNames_eq_nil_iff (startUtc endUtc : Int) (sheets : List RawSheet) :
    ∀ idx, (expectedNames startUtc endUtc idx sheets = [] ↔
      ∀ sh ∈ sheets, temporalFilter sh.rows startUtc endUtc = []) := by
  induction sheets with
  | nil =>
    intro idx
    simp [expectedNames]
  | cons sh rest ih =>
    intro idx
    rw [expectedNames, List.append_eq_nil]
    by_cases he : (temporalFilter sh.rows startUtc endUtc).isEmpty
    · have hnil : temporalFilter sh.rows startUtc endUtc = [] := List.isEmpty_iff.mp he
      simp [he, ih (idx + 1), hnil]
    · have hne : ¬ temporalFilter sh.rows startUtc endUtc = [] :=
        fun h => he (List.isEmpty_iff.mpr h)
      simp [he, hne]

/-- Claim C2 (amended): provided every sheet passes schema validation, the run
fails with the no-data error exactly when every sheet is empty after
filtering (each such sheet is skipped, not an error by itself), and as soon
as one sheet has rows in range the run succeeds. -/
theorem noData_iff_every_valid_sheet_empty (sheets : List RawSheet) (s e : Int)
    (hv : ∀ sh ∈ sheets, validates sh = true) :
    (process_excel sheets s e = .error (.noData noDataMsg) ↔
      ∀ sh ∈ sheets, filterByWindow sh.rows s e = [])
    ∧ ((∃ sh ∈ sheets, filterByWindow sh.rows s e ≠ []) →
        isOkE (process_excel sheets s e) = true) := by
  obtain ⟨l, hl, hnames⟩ :=
    processSheets_names (s * 86400) ((e + 1) * 86400) sheets 1 hv
  have hpe : process_excel sheets s e
      = if l.isEmpty then .error (.noData noDataMsg) else .ok l := by
    unfold process_excel
    simp only [hl]
  have hiff : (∀ sh ∈ sheets, filterByWindow sh.rows s e = []) ↔ l = [] := by
    constructor
    · intro hall
      have h0 : expectedNames (s * 86400) ((e + 1) * 86400) 1 sheets = [] :=
        (expectedNames_eq_nil_iff _ _ sheets 1).mpr (fun sh hs => hall sh hs)
      rw [h0] at hnames
      exact List.map_eq_nil_iff.mp hnames
    · intro h0
      subst h0
      intro sh hs
      exact (expectedNames_eq_nil_iff _ _ sheets 1).mp hnames.symm sh hs
  constructor
  · rw [hpe]
    by_cases h0 : l.isEmpty = true
    · rw [if_pos h0]
      have hle : l = [] := List.isEmpty_iff.mp h0
      exact ⟨fun _ => hiff.mpr hle, fun _ => rfl⟩
    · rw [if_neg h0]
      constructor
      · intro hcontra
        exact Except.noConfusion hcontra
      · intro hall
        exact absurd (List.isEmpty_iff.mpr (hiff.mp hall)) h0
  · intro hex
    rw [hpe]
    obtain ⟨sh, hs, hne⟩ := hex
    have hl0 : l ≠ [] := fun hle => hne ((hiff.mpr hle) sh hs)
    rw [if_neg (fun h0 => hl0 (List.isEmpty_iff.mp h0))]
    rfl

/-- Witness for C2: two valid sheets, the first with its only row out of the
window, the second with no rows at all, trigger the no-data error. -/
theorem noData_iff_every_valid_sheet_empty_witness :
    (∀ sh ∈ [(⟨"E1", ["Tenant", "System Job", "Trigger Type", "Completed At"],
                [⟨"A", "yes", "ad-hoc", some 999999999⟩]⟩ : RawSheet),
              ⟨"E2", ["Tenant", "System Job", "Trigger Type", "Completed At"], []⟩],
        validates sh = true)
    ∧ ((process_excel
          [⟨"E1", ["Tenant", "System Job", "Trigger Type", "Completed At"],
            [⟨"A", "yes", "ad-hoc", some 999999999⟩]⟩,
           ⟨"E2", ["Tenant", "System Job", "Trigger Type", "Completed At"], []⟩] 0 1
          = .error (.noData noDataMsg) ↔
        ∀ sh ∈ [(⟨"E1", ["Tenant", "System Job", "Trigger Type", "Completed At"],
                  [⟨"A", "yes", "ad-hoc", some 999999999⟩]⟩ : RawSheet),
                ⟨"E2", ["Tenant", "System Job", "Trigger Type", "Completed At"], []⟩],
          filterByWindow sh.rows 0 1 = [])
      ∧ ((∃ sh ∈ [(⟨"E1", ["Tenant", "System Job", "Trigger Type", "Completed At"],
                    [⟨"A", "yes", "ad-hoc", some 999999999⟩]⟩ : RawSheet),
                  ⟨"E2", ["Tenant", "System Job", "Trigger Type", "Completed At"], []⟩],
            filterByWindow sh.rows 0 1 ≠ []) →
          isOkE (process_excel
            [⟨"E1", ["Tenant", "System Job", "Trigger Type", "Completed At"],
              [⟨"A", "yes", "ad-hoc", some 999999999⟩]⟩,
             ⟨"E2", ["Tenant", "System Job", "Trigger Type", "Completed At"], []⟩] 0 1) = true)) :=
  ⟨by decide,
   noData_iff_every_valid_sheet_empty
     [⟨"E1", ["Tenant", "System Job", "Trigger Type", "Completed At"],
       [⟨"A", "yes", "ad-hoc", some 999999999⟩]⟩,
      ⟨"E2", ["Tenant", "System Job", "Trigger Type", "Completed At"], []⟩] 0 1 (by decide)⟩

/-- Counterexample to Claim C2 as stated: a single sheet missing required
columns contributes no tables (the run aborts with nothing), yet the run
fails with the schema error, not the no-data error. -/
theorem schema_failure_contributes_nothing_but_not_noData :
    tablesOf (process_excel [⟨"Sheet1", ["Tenant"], []⟩] 0 1) = []
    ∧ process_excel [⟨"Sheet1", ["Tenant"], []⟩] 0 1
        = .error (.schema (schemaMsg "Sheet1"))
    ∧ PipelineError.schema (schemaMsg "Sheet1") ≠ PipelineError.noData noDataMsg :=
  ⟨by decide, rfl, by decide⟩

/-- Claim C6 (amended): when every sheet validates, the loop succeeds and each
sheet that is non-empty after filtering contributes exactly four tables whose
names carry `Env_<n>_` with `<n>` the 1-based position of the sheet in the
input file — a skipped sheet contributes nothing but still consumes its
index (see `expectedNames`). -/
theorem env_numbering_by_file_position (sheets : List RawSheet) (s e : Int)
    (hv : ∀ sh ∈ sheets, validates sh = true) :
    ∃ l, processSheets (s * 86400) ((e + 1) * 86400) 1 sheets = .ok l
      ∧ l.map Prod.fst = expectedNames (s * 86400) ((e + 1) * 86400) 1 sheets :=
  processSheets_names (s * 86400) ((e + 1) * 86400) sheets 1 hv

/-- Witness for C6: the numbering on a concrete two-sheet file, first sheet
skipped. -/
theorem env_numbering_by_file_position_witness :
    (∀ sh ∈ [(⟨"First", ["Tenant", "System Job", "Trigger Type", "Completed At"],
                [⟨"A", "yes", "ad-hoc", some 999999999⟩]⟩ : RawSheet),
              ⟨"Second", ["Tenant", "System Job", "Trigger Type", "Completed At"],
                [⟨"B", "no", "scheduled", some 0⟩]⟩],
        validates sh = true)
    ∧ ∃ l, processSheets (0 * 86400) ((1 + 1) * 86400) 1
          [⟨"First", ["Tenant", "System Job", "Trigger Type", "Completed At"],
            [⟨"A", "yes", "ad-hoc", some 999999999⟩]⟩,
           ⟨"Second", ["Tenant", "System Job", "Trigger Type", "Completed At"],
            [⟨"B", "no", "scheduled", some 0⟩]⟩] = .ok l
        ∧ l.map Prod.fst = expectedNames (0 * 86400) ((1 + 1) * 86400) 1
            [⟨"First", ["Tenant", "System Job", "Trigger Type", "Completed At"],
              [⟨"A", "yes", "ad-hoc", some 999999999⟩]⟩,
             ⟨"Second", ["Tenant", "System Job", "Trigger Type", "Completed At"],
              [⟨"B", "no", "scheduled", some 0⟩]⟩] :=
  ⟨by decide,
   env_numbering_by_file_position
     [⟨"First", ["Tenant", "System Job", "Trigger Type", "Completed At"],
       [⟨"A", "yes", "ad-hoc", some 999999999⟩]⟩,
      ⟨"Second", ["Tenant", "System Job", "Trigger Type", "Completed At"],
       [⟨"B", "no", "scheduled", some 0⟩]⟩] 0 1 (by decide)⟩

/-- Counterexample to Claim C6 as stated: with the first sheet empty after
filtering and the second non-empty, the second sheet's tables are numbered
`Env_2_`, not `Env_1_` — the index counts position in the file, not position
among sheets that produced output. -/
theorem env_numbering_counterexample :
    (tablesOf (process_excel
        [⟨"First", ["Tenant", "System Job", "Trigger Type", "Completed At"],
          [⟨"A", "yes", "ad-hoc", some 999999999⟩]⟩,
         ⟨"Second", ["Tenant", "System Job", "Trigger Type", "Completed At"],
          [⟨"B", "no", "scheduled", some 0⟩]⟩] 0 1)).map Prod.fst =
      ["Env_2_Job_Type", "Env_2_Trigger_Type", "Env_2_TenantWise_Job_Count",
       "Env_2_TenantWise_System_Trigger_Count"]
    ∧ ("Env_2_Job_Type" : String) ≠ "Env_1_Job_Type" := ⟨by decide, by decide⟩

/-- Claim C8 (amended): a sheet whose normalized labels miss a required column
makes the whole run fail with the schema error naming that sheet; the message
does not list the missing labels (see the counterexample below). -/
theorem schema_error_names_failing_sheet (sh : RawSheet) (rest : List RawSheet)
    (s e : Int) (h : validates sh = false) :
    process_excel (sh :: rest) s e = .error (.schema (schemaMsg sh.name)) := by
  have hps : processSheets (s * 86400) ((e + 1) * 86400) 1 (sh :: rest)
      = .error (.schema (schemaMsg sh.name)) := by
    rw [processSheets, if_neg (by rw [h]; exact Bool.false_ne_true)]
  unfold process_excel
  simp only [hps]

/-- Witness for C8 at a concrete sheet missing the `Tenant` column. -/
theorem schema_error_names_failing_sheet_witness :
    validates (⟨"Data", ["System Job", "Trigger Type", "Completed At"], []⟩ : RawSheet) = false
    ∧ process_excel [⟨"Data", ["System Job", "Trigger Type", "Completed At"], []⟩] 0 1
        = .error (.schema (schemaMsg "Data")) :=
  ⟨by decide,
   schema_error_names_failing_sheet
     ⟨"Data", ["System Job", "Trigger Type", "Completed At"], []⟩ [] 0 1 (by decide)⟩

/-- Counterexample to Claim C8 as stated: two sheets with the same name but
DIFFERENT missing labels produce identical errors, so the message cannot be
naming the specific missing labels. -/
theorem schema_message_ignores_missing_labels :
    process_excel [⟨"Data", ["System Job", "Trigger Type", "Completed At"], []⟩] 0 1
      = process_excel [⟨"Data", ["Tenant", "System Job", "Trigger Type"], []⟩] 0 1
    ∧ process_excel [⟨"Data", ["System Job", "Trigger Type", "Completed At"], []⟩] 0 1
      = .error (.schema (schemaMsg "Data")) := ⟨rfl, rfl⟩

/-- Claim C9 (amended): rows whose `Completed At` fails to parse are dropped
without error, and a validating sheet whose timestamp column is ENTIRELY
unparseable is silently treated like an empty sheet — the loop skips it and
continues; no distinct temporal-parse error exists (see the counterexample). -/
theorem unparseable_sheet_skipped (sh : RawSheet) (rest : List RawSheet)
    (idx : ℕ) (startUtc endUtc : Int)
    (hv : validates sh = true) (hu : ∀ r ∈ sh.rows, r.completedAt = none) :
    processSheets startUtc endUtc idx (sh :: rest)
      = processSheets startUtc endUtc (idx + 1) rest := by
  have hf : temporalFilter sh.rows startUtc endUtc = [] := by
    unfold temporalFilter
    have h1 : sh.rows.filter (fun r => r.completedAt.isSome) = [] := by
      rw [List.filter_eq_nil_iff]
      intro r hr
      rw [hu r hr]
      exact Bool.false_ne_true
    rw [h1]
    rfl
  rw [processSheets, if_pos hv]
  simp only [hf, List.isEmpty_nil, if_true]

/-- Witness for C9: a concrete validating sheet whose single row has an
unparseable timestamp is skipped. -/
theorem unparseable_sheet_skipped_witness :
    validates (⟨"Logs", ["Tenant", "System Job", "Trigger Type", "Completed At"],
        [⟨"A", "yes", "ad-hoc", none⟩]⟩ : RawSheet) = true
    ∧ (∀ r ∈ [(⟨"A", "yes", "ad-hoc", none⟩ : Row)], r.completedAt = none)
    ∧ processSheets 0 172800 1
        [⟨"Logs", ["Tenant", "System Job", "Trigger Type", "Completed At"],
          [⟨"A", "yes", "ad-hoc", none⟩]⟩]
        = processSheets 0 172800 2 [] :=
  ⟨by decide, by decide,
   unparseable_sheet_skipped
     ⟨"Logs", ["Tenant", "System Job", "Trigger Type", "Completed At"],
       [⟨"A", "yes", "ad-hoc", none⟩]⟩ [] 1 0 172800 (by decide) (by decide)⟩

/-- Counterexample to Claim C9 as stated: a run whose only sheet has an
entirely unparseable `Completed At` column yields the very same outcome as a
run on a sheet with no rows at all — the generic no-data error, with no
temporal-parse error naming sheet or column. -/
theorem unparseable_sheet_treated_as_empty :
    process_excel [⟨"Logs", ["Tenant", "System Job", "Trigger Type", "Completed At"],
        [⟨"A", "yes", "ad-hoc", none⟩, ⟨"B", "no", "scheduled", none⟩]⟩] 0 1
      = process_excel [⟨"Logs", ["Tenant", "System Job", "Trigger Type", "Completed At"], []⟩] 0 1
    ∧ process_excel [⟨"Logs", ["Tenant", "System Job", "Trigger Type", "Completed At"],
        [⟨"A", "yes", "ad-hoc", none⟩, ⟨"B", "no", "scheduled", none⟩]⟩] 0 1
      = .error (.noData noDataMsg) := ⟨rfl, rfl⟩

/-- Claim C5: a token with zero occurrences yields count 0 (no error — the
tables are total functions of the sheet), and in both categorical tables the
Total row's count is the sum of the two category counts with the literal
"100%" percentage. -/
theorem cat_summary_zero_count_and_total (rows : List Row)
    (h : ∀ r ∈ rows, pyLower r.systemJob ≠ "yes") :
    countToken (rows.map Row.systemJob) "yes" = 0
    ∧ (job_type_df rows).map CatRow.count =
        [countToken (rows.map Row.systemJob) "yes",
         countToken (rows.map Row.systemJob) "no",
         countToken (rows.map Row.systemJob) "yes"
           + countToken (rows.map Row.systemJob) "no"]
    ∧ ((job_type_df rows).getLast?).map CatRow.pct = some (PctCell.lit "100%")
    ∧ (trigger_df rows).map CatRow.count =
        [countToken (rows.map Row.triggerType) "ad-hoc",
         countToken (rows.map Row.triggerType) "scheduled",
         countToken (rows.map Row.triggerType) "ad-hoc"
           + countToken (rows.map Row.triggerType) "scheduled"]
    ∧ ((trigger_df rows).getLast?).map CatRow.pct = some (PctCell.lit "100%") := by
  refine ⟨?_, rfl, rfl, rfl, rfl⟩
  unfold countToken
  rw [List.length_eq_zero, List.filter_eq_nil_iff]
  intro v hv
  obtain ⟨r, hr, rfl⟩ := List.mem_map.mp hv
  simp [h r hr]

/-- Witness for C5: a one-row sheet with no "yes" occurrence. -/
theorem cat_summary_zero_count_and_total_witness :
    (∀ r ∈ [(⟨"A", "no", "scheduled", some 0⟩ : Row)], pyLower r.systemJob ≠ "yes")
    ∧ (countToken (List.map Row.systemJob [(⟨"A", "no", "scheduled", some 0⟩ : Row)]) "yes" = 0
      ∧ (job_type_df [(⟨"A", "no", "scheduled", some 0⟩ : Row)]).map CatRow.count =
          [countToken (List.map Row.systemJob [(⟨"A", "no", "scheduled", some 0⟩ : Row)]) "yes",
           countToken (List.map Row.systemJob [(⟨"A", "no", "scheduled", some 0⟩ : Row)]) "no",
           countToken (List.map Row.systemJob [(⟨"A", "no", "scheduled", some 0⟩ : Row)]) "yes"
             + countToken (List.map Row.systemJob [(⟨"A", "no", "scheduled", some 0⟩ : Row)]) "no"]
      ∧ ((job_type_df [(⟨"A", "no", "scheduled", some 0⟩ : Row)]).getLast?).map CatRow.pct
          = some (PctCell.lit "100%")
      ∧ (trigger_df [(⟨"A", "no", "scheduled", some 0⟩ : Row)]).map CatRow.count =
          [countToken (List.map Row.triggerType [(⟨"A", "no", "scheduled", some 0⟩ : Row)]) "ad-hoc",
           countToken (List.map Row.triggerType [(⟨"A", "no", "scheduled", some 0⟩ : Row)]) "scheduled",
           countToken (List.map Row.triggerType [(⟨"A", "no", "scheduled", some 0⟩ : Row)]) "ad-hoc"
             + countToken (List.map Row.triggerType [(⟨"A", "no", "scheduled", some 0⟩ : Row)]) "scheduled"]
      ∧ ((trigger_df [(⟨"A", "no", "scheduled", some 0⟩ : Row)]).getLast?).map CatRow.pct
          = some (PctCell.lit "100%")) :=
  ⟨by decide,
   cat_summary_zero_count_and_total [(⟨"A", "no", "scheduled", some 0⟩ : Row)] (by decide)⟩
